import Mathlib

/-!
Verification of the `next-routes-dir` route compiler.

The development shallowly embeds the code of `src/utils/generate.ts` and the
`deepmerge` runtime helper.  File-system paths are modelled as lists of path
segments (`Path`); the path separator is `/` and `renderPath` recovers the
string form used inside generated source text.  Parsed files are modelled by
the list of their top-level statements (`TopStmt`), mirroring the ESTree
shapes produced by acorn that the analyzer functions inspect.
-/

set_option maxRecDepth 100000

namespace NextRoutesDir

/-- A file-system path, as its list of segments (the string form joined by the
platform separator `/`). -/
abbrev Path := List String

/-- Render a segment path to its string form (segments joined by `/`). -/
def renderPath (p : Path) : String := String.intercalate "/" p

/-- Drop a trailing `.ext` extension from a single file name (the behaviour of
the repository's `trimExtension` on a basename, and of `path.parse(p).name`):
everything after the last dot is removed when a dot is present. -/
def trimExtLast (name : String) : String :=
  let r := name.data.reverse
  if r.any (fun c => c == '.') then ((r.dropWhile fun c => c != '.').drop 1).reverse.asString
  else name

/-- Split a character list on the path separator `/` (the segment structure
of a rendered path string). -/
def splitOnSlash : List Char → List (List Char)
  | [] => [[]]
  | c :: rest =>
    let r := splitOnSlash rest
    if c == '/' then [] :: r else (c :: r.headD []) :: r.tail

/-- Modelled from the spec: the repository's `~/utils/extension.js` helper
`trimExtension` is not part of the provided sources; per the spec's path
mapping it strips the file extension of the terminal segment of a path
(directory segments are untouched). -/
def trimExtension (s : String) : String :=
  let segs := (splitOnSlash s.data).map List.asString
  String.intercalate "/" (segs.dropLast ++ [trimExtLast (segs.getLastD "")])

/-- A path segment is a route-group segment when it is wrapped in
parentheses (`routeSegment.startsWith('(') && routeSegment.endsWith(')')`). -/
def isGroupSegment (s : String) : Bool :=
  "(".data.isPrefixOf s.data && List.isSuffixOf ")".data s.data

/-- The `this.relativeFilePathFromRoutesDir.startsWith('api/')` test of
`generate.ts`, applied to the segment form of the relative path. -/
def underApi (rel : Path) : Bool := "api/".data.isPrefixOf (renderPath rel).data

/-- `path.relative(base, p)` for the only case the generator exercises
(`p` lies below `base`): the leading `base` segments are dropped. -/
def pathRelative (base p : Path) : Path :=
  if base.isPrefixOf p then p.drop base.length else p

/-! ### Export-shape analysis (acorn AST model)

`TopStmt` models the top-level statements of a parsed module exactly at the
granularity `hasGetServerSidePropsExport` and `hasDefaultExport` inspect.
In ESTree, an `ExportNamedDeclaration` node has a `declaration` field that is
either a declaration node (for `export const …` / `export function …`) or
`null` (for specifier-style `export { a as b }` exports, whose bindings sit
in the node's own `specifiers` list). -/

/-- The declaration carried by a named-export statement when it is not
`null`: a variable declaration (with its declarator identifier names) or a
function declaration (with its identifier name). -/
inductive JsDecl where
  | varDecl (names : List String)
  | funDecl (name : String)
deriving Repr, DecidableEq

/-- A top-level module statement, at the granularity the analyzers look at. -/
inductive TopStmt where
  /-- `ExportNamedDeclaration` whose `declaration` field is a declaration node. -/
  | exportNamedDecl (d : JsDecl)
  /-- `ExportNamedDeclaration` whose `declaration` field is `null` and whose
  `specifiers` list exports the given names (`export { a as b }` exports `b`). -/
  | exportNamedSpecs (exported : List String)
  /-- `ExportDefaultDeclaration`. -/
  | exportDefaultDecl
  /-- Any other top-level statement. -/
  | otherStmt
deriving Repr, DecidableEq

/-- Whether the node's `type` is `'ExportNamedDeclaration'`. -/
def TopStmt.isExportNamed : TopStmt → Bool
  | .exportNamedDecl _ => true
  | .exportNamedSpecs _ => true
  | _ => false

/-- Whether the node's `type` is `'ExportDefaultDeclaration'`. -/
def TopStmt.isExportDefault : TopStmt → Bool
  | .exportDefaultDecl => true
  | _ => false

/-- `RouteFile.hasGetServerSidePropsExport`, with JavaScript member-access
semantics made explicit.  The source finds the FIRST `ExportNamedDeclaration`
of the body and reads `found?.declaration`:

* no named export: `undefined`, so the function returns `false`;
* declaration-form export: `declaration.declarations?.some(d => d.id?.name
  === 'getServerSideProps')` checks variable declarators, then
  `declaration.id?.name` checks a function declaration; the final
  `declaration.specifiers?.some(…)` probe is vacuous because declaration
  nodes carry no `specifiers` field (`undefined`, short-circuited by `?.`);
* specifier-form export: `declaration` is `null`, which is `!== undefined`,
  so the subsequent `null.declarations` member access throws a `TypeError`
  (modelled as `Except.error ()`). -/
def hasGetServerSidePropsExport (body : List TopStmt) : Except Unit Bool :=
  match body.find? TopStmt.isExportNamed with
  | none => .ok false
  | some (.exportNamedDecl (.varDecl names)) => .ok (names.contains "getServerSideProps")
  | some (.exportNamedDecl (.funDecl name)) => .ok (name == "getServerSideProps")
  | some (.exportNamedSpecs _) => .error ()
  | some _ => .ok false

/-- `RouteFile.hasDefaultExport`: `body.some(node => node.type ===
'ExportDefaultDeclaration')`. -/
def hasDefaultExport (body : List TopStmt) : Bool :=
  body.any TopStmt.isExportDefault

/-! ### Path mapping -/

/-- `RouteFile.getRouteGroups`: walk the non-terminal segments left to right
and, at every group segment, record the folder path up to and including it. -/
def getRouteGroups (rel : Path) : List Path :=
  rel.dropLast.enum.filterMap fun seg =>
    if isGroupSegment seg.2 then some (rel.take (seg.1 + 1)) else none

/-- `RouteFile.getTargetPagesFilePathSegments`: the non-terminal segments of
the relative route path with group segments elided. -/
def getTargetPagesFilePathSegments (rel : Path) : Path :=
  rel.dropLast.filter fun seg => !isGroupSegment seg

/-- `RouteFile.getTargetPagesFilePath` relative to a `pagesDir`: `api/` paths
are preserved verbatim; otherwise the retained plain segments are used, an
empty list mapping to the root `index.tsx` and a nonempty list having `.tsx`
appended to its last segment. -/
def getTargetPagesFilePath (pagesDir : Path) (rel : Path) : Path :=
  if underApi rel then pagesDir ++ rel
  else
    let segs := getTargetPagesFilePathSegments rel
    if segs.length = 0 then pagesDir ++ ["index.tsx"]
    else pagesDir ++ (segs.dropLast ++ [segs.getLastD "" ++ ".tsx"])

/-! ### File-system / parse state

The generator consults the file system through `fs.existsSync` (layout
lookup), reads and parses source files, and writes or copies artifacts.
`FsState` packages these external effects as a pure oracle: `files` is the
set of existing files, `astOf` gives the parse result of a file's contents
(an `Except` so that a parse failure — or the analyzer's own `TypeError` —
can be represented), and `writeFails` lists target paths whose write/copy
would reject (modelling `WriteError`). -/

structure FsState where
  files : List Path
  writeFails : List Path
  astOf : Path → Except Unit (List TopStmt)

/-- `fs.existsSync` on the modelled file system. -/
def FsState.existsFile (fs : FsState) (p : Path) : Bool := fs.files.contains p

/-- Global configuration of `RouteGenerator` (from `GenerateOptions`).
Wrapper functions are `(path, name)` pairs. -/
structure Config where
  routesDir : Path
  pagesDir : Path
  componentWrapperFunction : Option (String × String) := none
  getServerSidePropsWrapperFunction : Option (String × String) := none

/-! ### Layout chain resolution -/

/-- The fixed, ordered extension candidates tried for a layout file. -/
def layoutExtensions : List String := ["tsx", "jsx", "ts", "js"]

/-- The per-group layout lookup of `generateTargetPagesFile`: for each route
group (in chain order), the first extension candidate whose `layout.<ext>`
file exists directly inside the group folder is taken; groups without a
layout file are dropped. -/
def layoutFilePaths (routesDir : Path) (fs : FsState) (rel : Path) : List Path :=
  (getRouteGroups rel).filterMap fun g =>
    (layoutExtensions.map fun ext => routesDir ++ g ++ ["layout." ++ ext]).find? fun p =>
      fs.existsFile p

/-- Model of `change-case`'s `pascalCase` for the inputs this code feeds it
(single words already stripped of non-word characters): the first character
is upper-cased. -/
def pascalCase (s : String) : String := s.capitalize

/-- Model of `change-case`'s `camelCase` for the inputs this code feeds it
(already-pascal-cased single words): the first character is lower-cased. -/
def camelCase (s : String) : String := s.decapitalize

/-- `replaceAll(/\W/g, '')`: keep only word characters. -/
def stripNonWord (s : String) : String :=
  (s.toList.filter fun c => c.isAlphanum || c == '_').asString

/-- `getLayoutName`: pascal-cased basename of the layout file's directory,
stripped of non-word characters, suffixed with `Layout`. -/
def getLayoutName (layoutFilePath : Path) : String :=
  pascalCase (stripNonWord (layoutFilePath.dropLast.getLastD "")) ++ "Layout"

/-- `getLayoutGetServerSidePropsExport`: camel-cased layout name suffixed
with `GetServerSideProps`. -/
def getLayoutGetServerSidePropsExport (layoutFilePath : Path) : String :=
  camelCase (getLayoutName layoutFilePath) ++ "GetServerSideProps"

/-- The layout analysis fan-out of `generateTargetPagesFile` (the
`Promise.all` over `layoutFilePaths`): analyze every layout file and keep, in
chain order, those whose analysis succeeded with `true`.  Any analysis
failure rejects the whole `Promise.all` (and therefore the surrounding
generation).  The traversal order here fixes only the CONTENTS of the
`layoutFilePathsWithGetServerSideProps` set; the set's insertion order is the
completion order of the concurrent analyses and is threaded separately into
the generator (see `generateTargetPagesFile`). -/
def filterGSSP (fs : FsState) : List Path → Except Unit (List Path)
  | [] => .ok []
  | p :: ps =>
    match (fs.astOf p).bind hasGetServerSidePropsExport with
    | .error e => .error e
    | .ok b =>
      match filterGSSP fs ps with
      | .error e => .error e
      | .ok rest => .ok (if b then p :: rest else rest)

/-! ### Code generation -/

/-- One effect of a generation step: a byte-for-byte copy of a special file,
or a write of generated text to a target path. -/
inductive OutputAction where
  | copy (rel : Path)
  | write (target : Path) (contents : String)
deriving Repr, DecidableEq

/-- The text of one layout data-loader invocation inside the combined
`getServerSideProps`. -/
def layoutCallText (layoutFilePath : Path) : String :=
  "await " ++ getLayoutGetServerSidePropsExport layoutFilePath ++
    "?.(context) ?? \x7b props: \x7b\x7d \x7d"

/-- The text of the route's own data-loader invocation. -/
def pageCallText : String :=
  "await pageGetServerSideProps?.(context) ?? \x7b props: \x7b\x7d \x7d"

/-- The ordered data-loader invocations of the combined function: the spread
`[...layoutFilePathsWithGetServerSideProps]` (whose iteration order is the
set's insertion order `sGssp`) followed, when the route itself has a
data-loader, by the route's own invocation. -/
def gsspCalls (sGssp : List Path) (pageGssp : Bool) : List String :=
  sGssp.map layoutCallText ++ (if pageGssp then [pageCallText] else [])

/-- `mergedGetServerSidePropsFunction`: a single contributing call is
returned directly; several are combined through `deepmerge`. -/
def mergedGsspFunction (calls : List String) : String :=
  if calls.length = 1 then
    "async (context) => \x7b\n\treturn " ++ calls.headD "" ++ ";\n\x7d"
  else
    "async (context) => \x7b\n\treturn deepmerge(\n\t\t" ++
      String.intercalate ",\n\t\t" calls ++ "\n\t)\n\x7d"

/-- The `export const getServerSideProps = …` top-level statement, optionally
wrapped by the configured data-loader wrapper. -/
def gsspStatement (cfg : Config) (calls : List String) : String :=
  match cfg.getServerSidePropsWrapperFunction with
  | none => "export const getServerSideProps = " ++ mergedGsspFunction calls
  | some wf =>
    "export const getServerSideProps = " ++ wf.2 ++ "(" ++ mergedGsspFunction calls ++ ")"

/-- `getComponentJsxString`: nest the route component inside the layout chain
(head of the list outermost), every layer forwarding the same `props` bag. -/
def getComponentJsxString : List Path → String
  | [] => "<RouteComponent \x7b...props\x7d />"
  | l :: rest =>
    "<" ++ getLayoutName l ++ " \x7b...props\x7d>" ++ getComponentJsxString rest ++
      "</" ++ getLayoutName l ++ ">"

/-- The `export default …` top-level statement for the composed view,
optionally wrapped by the configured component wrapper. -/
def defaultExportStatement (cfg : Config) (lfps : List Path) : String :=
  match cfg.componentWrapperFunction with
  | none => "export default (props) => (" ++ getComponentJsxString lfps ++ ")"
  | some wf =>
    "export default " ++ wf.2 ++ "((props) => (" ++ getComponentJsxString lfps ++ "))"

/-- The import lines of the generated file, in the order the source pushes
them: React and the route component (when the route has a default export);
per layout, in chain order, its component import (when the route has a
default export) and its data-loader import (when the layout's analysis found
one); the route's own data-loader import; the component wrapper import; the
`deepmerge` import (when a combined function over several calls is built);
and the data-loader wrapper import. -/
def pagesFileImportLines (cfg : Config) (rel : Path) (lfps lwg : List Path)
    (hasPageComponent pageGssp shouldExport : Bool) (numCalls : Nat) : List String :=
  (if hasPageComponent then
      ["import React from 'react'",
        "import RouteComponent from '" ++ trimExtension (renderPath (cfg.routesDir ++ rel)) ++ "'"]
    else []) ++
  (lfps.map fun l =>
      (if hasPageComponent then
          ["import " ++ getLayoutName l ++ " from '" ++ trimExtension (renderPath l) ++ "'"]
        else []) ++
      (if lwg.contains l then
          ["import \x7b getServerSideProps as " ++ getLayoutGetServerSidePropsExport l ++
            " \x7d from '" ++ trimExtension (renderPath l) ++ "'"]
        else [])).flatten ++
  (if pageGssp then
      ["import \x7b getServerSideProps as pageGetServerSideProps \x7d from '" ++
        trimExtension (renderPath (cfg.routesDir ++ rel)) ++ "'"]
    else []) ++
  (match cfg.componentWrapperFunction with
    | some wf => ["import \x7b " ++ wf.2 ++ " \x7d from '" ++ wf.1 ++ "'"]
    | none => []) ++
  (if shouldExport && numCalls != 1 then
      ["import \x7b deepmerge \x7d from 'next-routes-dir/deepmerge'"]
    else []) ++
  (if shouldExport then
      match cfg.getServerSidePropsWrapperFunction with
      | some wf => ["import \x7b " ++ wf.2 ++ " \x7d from '" ++ wf.1 ++ "'"]
      | none => []
    else [])

/-- The top-level statements of the generated file: the combined data-loader
export (when some contributor has one) followed by the composed default
export (when the route has a default export). -/
def pagesFileTopLevelStatements (cfg : Config) (lfps : List Path)
    (shouldExport : Bool) (calls : List String) (hasPageComponent : Bool) : List String :=
  (if shouldExport then [gsspStatement cfg calls] else []) ++
  (if hasPageComponent then [defaultExportStatement cfg lfps] else [])

/-- `writeTargetPagesFile`: the write succeeds unless the target is flagged
as failing, in which case the rejection propagates to the caller's `catch`. -/
def writeOut (fs : FsState) (target : Path) (contents : String) :
    Except Unit (Option OutputAction) :=
  if fs.writeFails.contains target then .error () else .ok (some (.write target contents))

/-- The main (non-special, non-api-reexport) tail of
`generateTargetPagesFile`, from the layout-chain computation to the final
write.  `sGssp` is the insertion order of the
`layoutFilePathsWithGetServerSideProps` set — the completion order of the
concurrent layout analyses, a permutation of `filterGSSP`'s chain-order
result that the scheduler, not the source, determines. -/
def generateMain (cfg : Config) (fs : FsState) (sGssp : List Path) (rel : Path)
    (ast : List TopStmt) : Except Unit (Option OutputAction) :=
  let lfps := layoutFilePaths cfg.routesDir fs rel
  match filterGSSP fs lfps with
  | .error e => .error e
  | .ok lwg =>
    match hasGetServerSidePropsExport ast with
    | .error e => .error e
    | .ok pageGssp =>
      let hasPageComponent := hasDefaultExport ast
      let shouldExport := !lwg.isEmpty || pageGssp
      let calls := gsspCalls sGssp pageGssp
      let imports :=
        pagesFileImportLines cfg rel lfps lwg hasPageComponent pageGssp shouldExport calls.length
      let statements := pagesFileTopLevelStatements cfg lfps shouldExport calls hasPageComponent
      writeOut fs (getTargetPagesFilePath cfg.pagesDir rel)
        (String.intercalate ";\n" imports ++ "\n\n" ++ String.intercalate ";\n" statements)

/-- `RouteFile.generateTargetPagesFile`, up to (and not including) its
enclosing `try`/`catch`: `_app`/`_document` files are copied verbatim; the
file is read and parsed; an `api/` file WITH a default export gets the
verbatim re-export artifact; an `api/` file WITHOUT one falls through to the
main pipeline; a non-`api/` file that is not a `page` file produces nothing;
everything else runs the main pipeline. -/
def generateTargetPagesFile (cfg : Config) (fs : FsState) (sGssp : List Path)
    (rel : Path) : Except Unit (Option OutputAction) :=
  if ["_app", "_document"].contains (trimExtLast (rel.getLastD "")) then
    if fs.writeFails.contains (cfg.pagesDir ++ rel) then .error ()
    else .ok (some (.copy rel))
  else
    match fs.astOf (cfg.routesDir ++ rel) with
    | .error e => .error e
    | .ok ast =>
      if underApi rel then
        if ast.any TopStmt.isExportDefault then
          writeOut fs (getTargetPagesFilePath cfg.pagesDir rel)
            ("import RouteHandler from '" ++ renderPath cfg.routesDir ++ "/" ++
              trimExtension (renderPath rel) ++ "';\nexport default RouteHandler;")
        else generateMain cfg fs sGssp rel ast
      else
        if trimExtLast (rel.getLastD "") = "page" then generateMain cfg fs sGssp rel ast
        else .ok none

/-- The `catch` around `generateTargetPagesFile`: any error is logged and
swallowed, and the entry produces no artifact for the pass. -/
def generateCaught (cfg : Config) (fs : FsState) (sGssp : List Path) (rel : Path) :
    Option OutputAction :=
  match generateTargetPagesFile cfg fs sGssp rel with
  | .error _ => none
  | .ok o => o

/-- The generation phase of `RouteGenerator.generatePagesDirectory`: every
enumerated route file is generated (each with its own analysis completion
order `sOf`), failed entries contributing nothing. -/
def genPhase (cfg : Config) (fs : FsState) (sOf : Path → List Path)
    (rels : List Path) : List OutputAction :=
  rels.filterMap fun r => generateCaught cfg fs (sOf r) r

/-! ### Stale-artifact deletion phase -/

/-- The values of the `routeFileToPagesFile` map: the target paths (below
`pagesDir`) computed for the enumerated route files. -/
def routeFileToPagesFileTargets (pagesDir : Path) (routeRels : List Path) : List Path :=
  routeRels.map (getTargetPagesFilePath pagesDir)

/-- The deletion decision of `generatePagesDirectory`'s cleanup phase for an
existing generated file `g` (its full path): `g` is deleted exactly when its
`pagesDir`-relative path is not a key of the inverted `pagesFileToRouteFile`
map — whose keys are the (`pagesDir`-prefixed) values of
`routeFileToPagesFile`. -/
def staleDeletionDeletes (pagesDir : Path) (routeRels : List Path) (g : Path) : Bool :=
  !((routeFileToPagesFileTargets pagesDir routeRels).contains (pathRelative pagesDir g))

/-! ### The `deepmerge` runtime helper

The repository's `deepmerge` wrapper (the unnamed source file) delegates the
actual merging to the external `deepmerge-ts` library and then applies the
domain normalization: `if ('redirect' in merged) delete merged.props`.
JavaScript values are modelled by `JVal`; objects are association lists with
unique keys in insertion order. -/

/-- A JavaScript value at the granularity the merge inspects. -/
inductive JVal where
  | num (n : Int)
  | str (s : String)
  | obj (fields : List (String × JVal))

/-- Whether an object value has the given own property (`k in v`); `false`
on non-objects (where the JavaScript `in` operator would instead throw, see
`deepmerge`). -/
def hasKeyB (k : String) : JVal → Bool
  | .obj fs => fs.any fun kv => kv.1 == k
  | _ => false

/-- Modelled from the spec: the external `deepmerge-ts` two-value merge —
records are combined key-wise (fields of the first operand in order, merged
recursively with the second operand's field of the same key, then the second
operand's new fields), and on any other collision the later value wins.  The
recursion is bounded by an explicit depth `fuel` (the later value wins when
it runs out; every use in this development stays far below the bound). -/
def mergeTwoFuel : Nat → JVal → JVal → JVal
  | 0, _, b => b
  | Nat.succ fuel, JVal.obj fs1, JVal.obj fs2 =>
    JVal.obj
      ((fs1.map fun kv =>
          match fs2.find? (fun kv2 => kv2.1 == kv.1) with
          | some kv2 => (kv.1, mergeTwoFuel fuel kv.2 kv2.2)
          | none => kv) ++
        fs2.filter fun kv2 => (fs1.find? fun kv1 => kv1.1 == kv2.1).isNone)
  | Nat.succ _, _, b => b

/-- Modelled from the spec: `deepmerge-ts`'s variadic `deepmerge`, folding
the two-value merge over the arguments left to right (so the later call in
the ordered sequence wins on collision). -/
def deepmergeObjects : List JVal → JVal
  | [] => JVal.obj []
  | x :: xs => xs.foldl (mergeTwoFuel 1000) x

/-- The repository's `deepmerge` wrapper: merge all arguments, then, if the
merged result has a `redirect` property, delete its `props` property.  When
the merged result is not an object the `'redirect' in merged` test throws a
`TypeError` (modelled as `Except.error ()`). -/
def deepmerge (args : List JVal) : Except Unit JVal :=
  match deepmergeObjects args with
  | JVal.obj fs =>
    .ok (JVal.obj (if fs.any (fun kv => kv.1 == "redirect") then
      fs.filter fun kv => kv.1 != "props" else fs))
  | _ => .error ()

/-! ### Derived notions and concrete states -/

/-- A relative path under the routes directory plays the `route` role: its
terminal file is the reserved `page` name and it is not under the `api/`
passthrough root. -/
def isRouteRoleRel (rel : Path) : Prop :=
  trimExtLast (rel.getLastD "") = "page" ∧ underApi rel = false

/-- The contents a generation step wrote, or `""` when it wrote nothing. -/
def outContents : Except Unit (Option OutputAction) → String
  | .ok (some (.write _ c)) => c
  | _ => ""

/-- A configuration with `routes/` and `pages/` directories and no wrapper
functions. -/
def cfg0 : Config := { routesDir := ["routes"], pagesDir := ["pages"] }

/-- The layout file of the outer `(a)` route group. -/
def la0 : Path := ["routes", "(a)", "layout.tsx"]

/-- The layout file of the inner `(a)/(b)` route group. -/
def lb0 : Path := ["routes", "(a)", "(b)", "layout.tsx"]

/-- A route file nested inside the `(a)` and `(b)` route groups. -/
def rel0 : Path := ["(a)", "(b)", "page.tsx"]

/-- A parsed module with a default export and a `getServerSideProps`
variable export. -/
def astGD : List TopStmt :=
  [TopStmt.exportDefaultDecl, TopStmt.exportNamedDecl (JsDecl.varDecl ["getServerSideProps"])]

/-- A source tree in which both route-group layouts exist and the two
layouts and the route file all export a default component and a
`getServerSideProps` data-loader. -/
def fs0 : FsState :=
  { files := [la0, lb0],
    writeFails := [],
    astOf := fun p =>
      if p == la0 || p == lb0 || p == ["routes", "(a)", "(b)", "page.tsx"] then .ok astGD
      else .ok [] }

/-- A source tree in which only the outer `(a)` layout exists. -/
def fsOne : FsState :=
  { files := [la0],
    writeFails := [],
    astOf := fun p =>
      if p == la0 || p == ["routes", "(a)", "(b)", "page.tsx"] then .ok astGD else .ok [] }

/-- A source tree whose `api/handler.ts` exports only a named `handler`
function (no default export). -/
def fsApiNamed : FsState :=
  { files := [],
    writeFails := [],
    astOf := fun p =>
      if p == ["routes", "api", "handler.ts"] then
        .ok [TopStmt.exportNamedDecl (JsDecl.funDecl "handler")]
      else .ok [] }

/-- A source tree whose `api/handler.ts` has a default export. -/
def fsApiDefault : FsState :=
  { files := [],
    writeFails := [],
    astOf := fun p =>
      if p == ["routes", "api", "handler.ts"] then .ok [TopStmt.exportDefaultDecl]
      else .ok [] }

/-- A source tree in which the file `bad/page.tsx` fails to parse and
`ok/page.tsx` parses to an empty module. -/
def fsErr : FsState :=
  { files := [],
    writeFails := [],
    astOf := fun p => if p == ["routes", "bad", "page.tsx"] then .error () else .ok [] }

/-- The import lines generated for `rel0` in the `fs0` source tree (they are
emitted in layout-chain order, independent of the analyses' completion
order). -/
def importsText0 : String :=
  "import React from 'react';\n" ++
  "import RouteComponent from 'routes/(a)/(b)/page';\n" ++
  "import ALayout from 'routes/(a)/layout';\n" ++
  "import \x7b getServerSideProps as aLayoutGetServerSideProps \x7d from 'routes/(a)/layout';\n" ++
  "import BLayout from 'routes/(a)/(b)/layout';\n" ++
  "import \x7b getServerSideProps as bLayoutGetServerSideProps \x7d from 'routes/(a)/(b)/layout';\n" ++
  "import \x7b getServerSideProps as pageGetServerSideProps \x7d from 'routes/(a)/(b)/page';\n" ++
  "import \x7b deepmerge \x7d from 'next-routes-dir/deepmerge'"

/-! ### Helper lemmas -/

/-- Reconstruct a nonempty list from its `dropLast` and its `getLastD`. -/
theorem dropLast_append_getLastD {α : Type} :
    ∀ (l : List α) (d : α), l ≠ [] → l.dropLast ++ [l.getLastD d] = l
  | [], _, h => absurd rfl h
  | [_], _, _ => rfl
  | a :: b :: s, _, _ => by
    have ih := dropLast_append_getLastD (b :: s) a (by simp)
    simpa [List.dropLast, List.getLastD] using congrArg (a :: ·) ih

/-- Appending a single element is jointly injective. -/
theorem append_singleton_inj {α : Type} {a b : List α} {x y : α}
    (h : a ++ [x] = b ++ [y]) : a = b ∧ x = y := by
  have hlen : a.length = b.length := by
    have := congrArg List.length h
    simpa using this
  obtain ⟨h1, h2⟩ := List.append_inj h hlen
  exact ⟨h1, by simpa using h2⟩

/-- Appending a fixed string on the right is injective. -/
theorem string_append_cancel_right {s t u : String} (h : s ++ u = t ++ u) : s = t := by
  have hd : s.data ++ u.data = t.data ++ u.data := by
    have := congrArg String.data h
    simpa [String.data_append] using this
  exact congrArg String.mk (List.append_cancel_right hd)

/-- A permutation of a list with at most one element is that list. -/
theorem perm_eq_of_length_le_one {α : Type} {s l : List α}
    (hl : l.length ≤ 1) (hp : List.Perm s l) : s = l := by
  match l, hl with
  | [], _ => exact List.perm_nil.mp hp
  | [a], _ => exact List.perm_singleton.mp hp

/-! ### Claim theorems -/

/-- C1: the stale-deletion phase of `generatePagesDirectory` is claimed to
delete a generated file exactly when no current route entry maps to it.  The
code, however, inverts the `routeFileToPagesFile` map — whose values are
`pagesDir`-PREFIXED target paths — and then queries it with the generated
file's `pagesDir`-RELATIVE path (the code's own comment even documents the
inverted map as keyed by relative paths).  The lookup therefore never hits:
here the sole route file `foo/page.tsx` still exists and maps exactly to the
existing artifact `pages/foo.tsx`, yet the deletion phase deletes that
artifact. -/
theorem c1_stale_deletion_eval :
    getTargetPagesFilePath ["pages"] ["foo", "page.tsx"] = ["pages", "foo.tsx"] ∧
    pathRelative ["pages"] ["pages", "foo.tsx"] = ["foo.tsx"] ∧
    staleDeletionDeletes ["pages"] [["foo", "page.tsx"]] ["pages", "foo.tsx"] = true :=
  ⟨rfl, rfl, rfl⟩

/-- C5: the export-shape analysis is claimed to report a `getServerSideProps`
named export found in ANY top-level named-export statement, in any of the
three export forms.  The code only ever examines the FIRST
`ExportNamedDeclaration` (`body.find`), so a `getServerSideProps` export
preceded by another named-export statement is missed (first conjunct); and
for a specifier-form export the node's `declaration` field is `null`, so the
subsequent `null.declarations` access throws a `TypeError` instead of
consulting the node's `specifiers` (second conjunct) — the code's own
specifier branch reads `.specifiers` off the declaration node and is
unreachable.  Detection does work for a declaration-form export that comes
first (third conjunct). -/
theorem c5_export_scan_eval :
    hasGetServerSidePropsExport
        [TopStmt.exportNamedDecl (JsDecl.varDecl ["foo"]),
          TopStmt.exportNamedDecl (JsDecl.varDecl ["getServerSideProps"])] = .ok false ∧
    hasGetServerSidePropsExport [TopStmt.exportNamedSpecs ["getServerSideProps"]] = .error () ∧
    hasGetServerSidePropsExport
        [TopStmt.exportNamedDecl (JsDecl.varDecl ["getServerSideProps"])] = .ok true :=
  ⟨rfl, rfl, rfl⟩

/-- C9: per-entry generation failures are isolated.  An entry whose
generation raises an error (parse failure, analyzer `TypeError`, write
rejection) contributes nothing to the pass, and the artifacts produced for
all other entries are exactly those of the pass without the failing entry. -/
theorem c9_failure_isolation :
    ∀ (cfg : Config) (fs : FsState) (sOf : Path → List Path)
      (pre : List Path) (e : Path) (post : List Path),
      generateTargetPagesFile cfg fs (sOf e) e = .error () →
      genPhase cfg fs sOf (pre ++ e :: post) =
        genPhase cfg fs sOf pre ++ genPhase cfg fs sOf post := by
  intro cfg fs sOf pre e post herr
  have hnone : generateCaught cfg fs (sOf e) e = none := by
    unfold generateCaught
    rw [herr]
  unfold genPhase
  rw [List.filterMap_append, List.filterMap_cons, hnone]

/-- Witness for C9 at a concrete state: the pass over `[bad/page.tsx,
ok/page.tsx]`, where `bad/page.tsx` fails to parse, produces exactly the
artifacts of the pass over `[ok/page.tsx]` alone. -/
theorem c9_failure_isolation_witness :
    genPhase cfg0 fsErr (fun _ => []) [["bad", "page.tsx"], ["ok", "page.tsx"]] =
      genPhase cfg0 fsErr (fun _ => []) [] ++ genPhase cfg0 fsErr (fun _ => []) [["ok", "page.tsx"]] :=
  c9_failure_isolation cfg0 fsErr (fun _ => []) [] ["bad", "page.tsx"] [["ok", "page.tsx"]] rfl

/-- C6: the `deepmerge` wrapper normalizes the merged result so that a
redirect supersedes props: whenever the deep-merged result of the
contributing calls carries a `redirect` key, the wrapper's result exists,
still carries the `redirect` key, and carries no `props` key. -/
theorem c6_redirect_supersedes_props :
    ∀ args : List JVal, hasKeyB "redirect" (deepmergeObjects args) = true →
      ∃ m, deepmerge args = .ok m ∧
        hasKeyB "props" m = false ∧ hasKeyB "redirect" m = true := by
  intro args h
  match hm : deepmergeObjects args with
  | .num n => rw [hm] at h; simp [hasKeyB] at h
  | .str s => rw [hm] at h; simp [hasKeyB] at h
  | .obj fs =>
    rw [hm] at h
    have hred : fs.any (fun kv => kv.1 == "redirect") = true := h
    refine ⟨JVal.obj (fs.filter fun kv => kv.1 != "props"), ?_, ?_, ?_⟩
    · unfold deepmerge
      rw [hm]
      simp [hred]
    · simp only [hasKeyB, List.any_eq_false]
      intro kv hkv
      have := (List.mem_filter.mp hkv).2
      simp only [bne_iff_ne, ne_eq] at this
      simpa using this
    · simp only [hasKeyB, List.any_eq_true] at hred ⊢
      obtain ⟨kv, hmem, hkv⟩ := hred
      refine ⟨kv, List.mem_filter.mpr ⟨hmem, ?_⟩, hkv⟩
      have : kv.1 = "redirect" := by simpa using hkv
      rw [this]
      decide

/-- Witness for C6 at the spec's own example: merging a layout result
`\x7bredirect: \x7bdestination: "/login"\x7d\x7d` after a route result
`\x7bprops: \x7bx: 1\x7d\x7d` yields a value with the redirect and no props
key. -/
theorem c6_redirect_witness :
    ∃ m,
      deepmerge
          [JVal.obj [("props", JVal.obj [("x", JVal.num 1)])],
            JVal.obj [("redirect", JVal.obj [("destination", JVal.str "/login")])]] = .ok m ∧
        hasKeyB "props" m = false ∧ hasKeyB "redirect" m = true :=
  c6_redirect_supersedes_props
    [JVal.obj [("props", JVal.obj [("x", JVal.num 1)])],
      JVal.obj [("redirect", JVal.obj [("destination", JVal.str "/login")])]]
    (by rfl)

/-- The basename of a path's directory, for a path of the form
`R ++ [folder, file]`. -/
theorem dirname_last {R : Path} {x y : String} : ((R ++ [x, y]).dropLast).getLastD "" = x := by
  have h : R ++ [x, y] = (R ++ [x]) ++ [y] := by simp
  rw [h, List.dropLast_concat, List.getLastD_concat]

/-- C7: for a route nested inside grouping folders `(a)/(b)`, each directly
containing a `layout.tsx` (the first extension candidate, so it wins
whatever else exists), the resolved layout chain lists `(a)`'s layout before
`(b)`'s, and the composed view expression nests `(a)`'s layout outermost,
then `(b)`'s layout, then the route's own component innermost, each layer
forwarding the same `props` bag. -/
theorem c7_layout_nesting :
    ∀ (routesDir : Path) (fs : FsState),
      fs.existsFile (routesDir ++ ["(a)", "layout.tsx"]) = true →
      fs.existsFile (routesDir ++ ["(a)", "(b)", "layout.tsx"]) = true →
      layoutFilePaths routesDir fs ["(a)", "(b)", "page.tsx"] =
          [routesDir ++ ["(a)", "layout.tsx"], routesDir ++ ["(a)", "(b)", "layout.tsx"]] ∧
        getComponentJsxString
            [routesDir ++ ["(a)", "layout.tsx"], routesDir ++ ["(a)", "(b)", "layout.tsx"]] =
          "<ALayout \x7b...props\x7d><BLayout \x7b...props\x7d><RouteComponent \x7b...props\x7d /></BLayout></ALayout>" := by
  intro R fs h1 h2
  have n1 : getLayoutName (R ++ ["(a)", "layout.tsx"]) = "ALayout" := by
    unfold getLayoutName
    rw [dirname_last]
    decide
  have n2 : getLayoutName (R ++ ["(a)", "(b)", "layout.tsx"]) = "BLayout" := by
    have h : R ++ ["(a)", "(b)", "layout.tsx"] = (R ++ ["(a)"]) ++ ["(b)", "layout.tsx"] := by
      simp
    rw [h]
    unfold getLayoutName
    rw [dirname_last]
    decide
  constructor
  · unfold layoutFilePaths
    have hg : getRouteGroups ["(a)", "(b)", "page.tsx"] = [["(a)"], ["(a)", "(b)"]] := by decide
    rw [hg]
    simp only [layoutExtensions, List.map_cons, List.map_nil, List.filterMap_cons,
      List.filterMap_nil, List.append_assoc]
    rw [show ["(a)"] ++ ["layout." ++ "tsx"] = ["(a)", "layout.tsx"] from rfl,
      show ["(a)", "(b)"] ++ ["layout." ++ "tsx"] = ["(a)", "(b)", "layout.tsx"] from rfl]
    rw [List.find?_cons_of_pos _ h1, List.find?_cons_of_pos _ h2]
  · simp only [getComponentJsxString, n1, n2]
    rfl

/-- Witness for C7 at the concrete tree `fs0` with `routesDir = routes`. -/
theorem c7_layout_nesting_witness :
    layoutFilePaths ["routes"] fs0 ["(a)", "(b)", "page.tsx"] =
        [["routes"] ++ ["(a)", "layout.tsx"], ["routes"] ++ ["(a)", "(b)", "layout.tsx"]] ∧
      getComponentJsxString
          [["routes"] ++ ["(a)", "layout.tsx"], ["routes"] ++ ["(a)", "(b)", "layout.tsx"]] =
        "<ALayout \x7b...props\x7d><BLayout \x7b...props\x7d><RouteComponent \x7b...props\x7d /></BLayout></ALayout>" :=
  c7_layout_nesting ["routes"] fs0 rfl rfl

/-- C10: default-export detection recognizes only `ExportDefaultDeclaration`
nodes.  A module whose default export is provided as a named-export
specifier alias (`export \x7b X as default \x7d`) and that contains no
export-default declaration node is reported as having no default export,
and consequently the generated top-level statements contain no composed
default-export statement — only the (possible) combined data-loader. -/
theorem c10_default_alias_not_detected :
    ∀ (body : List TopStmt) (cfg : Config) (lfps : List Path) (se : Bool) (calls : List String),
      (∃ ex, TopStmt.exportNamedSpecs ex ∈ body ∧ "default" ∈ ex) →
      (∀ st ∈ body, st ≠ TopStmt.exportDefaultDecl) →
      hasDefaultExport body = false ∧
        pagesFileTopLevelStatements cfg lfps se calls (hasDefaultExport body) =
          if se then [gsspStatement cfg calls] else [] := by
  intro body cfg lfps se calls _ hnone
  have hfalse : hasDefaultExport body = false := by
    unfold hasDefaultExport
    rw [List.any_eq_false]
    intro st hst
    have hne := hnone st hst
    cases st <;> simp_all [TopStmt.isExportDefault]
  refine ⟨hfalse, ?_⟩
  rw [hfalse]
  unfold pagesFileTopLevelStatements
  simp

/-- Witness for C10 at the module `export \x7b Page as default \x7d` (a sole
specifier-alias default export). -/
theorem c10_default_alias_witness :
    hasDefaultExport [TopStmt.exportNamedSpecs ["default"]] = false ∧
      pagesFileTopLevelStatements cfg0 [] false [] (hasDefaultExport [TopStmt.exportNamedSpecs ["default"]]) =
        if false then [gsspStatement cfg0 []] else [] :=
  c10_default_alias_not_detected [TopStmt.exportNamedSpecs ["default"]] cfg0 [] false []
    ⟨["default"], by simp, by simp⟩ (by decide)

/-- C8 (counterexample): target-path mapping is claimed injective on
route-role entries whenever the retained plain-segment sequences differ.
The home route `page.tsx` (retained sequence `[]`) and the route
`index/page.tsx` (retained sequence `[index]`) are both route-role entries
with different retained sequences, yet both map to `pages/index.tsx`. -/
theorem c8_injectivity_counterexample :
    isRouteRoleRel ["page.tsx"] ∧ isRouteRoleRel ["index", "page.tsx"] ∧
      getTargetPagesFilePathSegments ["page.tsx"] = [] ∧
      getTargetPagesFilePathSegments ["index", "page.tsx"] = ["index"] ∧
      getTargetPagesFilePath ["pages"] ["page.tsx"] =
        getTargetPagesFilePath ["pages"] ["index", "page.tsx"] := by
  refine ⟨⟨rfl, rfl⟩, ⟨rfl, rfl⟩, rfl, rfl, rfl⟩

/-- C8 (amended): the mapping is a pure function of the relative path (it is
defined on the path alone), and it is injective on route-role entries with
differing retained plain-segment sequences EXCEPT for the home-route
collision: when one sequence is empty and the other is exactly `[index]`,
both map to the index artifact.  Outside that single collision, distinct
retained sequences give distinct target paths. -/
theorem c8_injectivity_amended :
    ∀ (pagesDir p q : Path),
      isRouteRoleRel p → isRouteRoleRel q →
      getTargetPagesFilePathSegments p ≠ getTargetPagesFilePathSegments q →
      ¬(getTargetPagesFilePathSegments p = [] ∧ getTargetPagesFilePathSegments q = ["index"]) →
      ¬(getTargetPagesFilePathSegments q = [] ∧ getTargetPagesFilePathSegments p = ["index"]) →
      getTargetPagesFilePath pagesDir p ≠ getTargetPagesFilePath pagesDir q := by
  intro D p q hp hq hne hx1 hx2 heq
  unfold getTargetPagesFilePath at heq
  rw [hp.2, hq.2] at heq
  simp only [Bool.false_eq_true, if_false] at heq
  set a := getTargetPagesFilePathSegments p with haDef
  set b := getTargetPagesFilePathSegments q with hbDef
  by_cases ha : a.length = 0 <;> by_cases hb : b.length = 0
  · exact hne (by rw [List.length_eq_zero.mp ha, List.length_eq_zero.mp hb])
  · rw [if_pos ha, if_neg hb] at heq
    have hcan : ([] : Path) ++ ["index.tsx"] = b.dropLast ++ [b.getLastD "" ++ ".tsx"] := by
      simpa using List.append_cancel_left heq
    obtain ⟨hd, hl⟩ := append_singleton_inj hcan
    have h3 : b.getLastD "" ++ ".tsx" = "index" ++ ".tsx" := hl.symm
    have hbl := string_append_cancel_right h3
    have hbne : b ≠ [] := fun hb0 => hb (by rw [hb0]; rfl)
    have hb2 : b = ["index"] := by
      conv_lhs => rw [← dropLast_append_getLastD b "" hbne]
      rw [← hd, hbl]
      rfl
    exact hx1 ⟨List.length_eq_zero.mp ha, hb2⟩
  · rw [if_neg ha, if_pos hb] at heq
    have hcan : a.dropLast ++ [a.getLastD "" ++ ".tsx"] = ([] : Path) ++ ["index.tsx"] := by
      simpa using List.append_cancel_left heq
    obtain ⟨hd, hl⟩ := append_singleton_inj hcan
    have h3 : a.getLastD "" ++ ".tsx" = "index" ++ ".tsx" := hl
    have hal := string_append_cancel_right h3
    have hane : a ≠ [] := fun ha0 => ha (by rw [ha0]; rfl)
    have ha2 : a = ["index"] := by
      conv_lhs => rw [← dropLast_append_getLastD a "" hane]
      rw [hd, hal]
      rfl
    exact hx2 ⟨List.length_eq_zero.mp hb, ha2⟩
  · rw [if_neg ha, if_neg hb] at heq
    have hcan := List.append_cancel_left heq
    obtain ⟨hd, hl⟩ := append_singleton_inj hcan
    have hll := string_append_cancel_right hl
    have hane : a ≠ [] := fun ha0 => ha (by rw [ha0]; rfl)
    have hbne : b ≠ [] := fun hb0 => hb (by rw [hb0]; rfl)
    refine hne ?_
    rw [← dropLast_append_getLastD a "" hane, ← dropLast_append_getLastD b "" hbne, hd, hll]

/-- Witness for C8 (amended) at the distinct routes `a/page.tsx` and
`b/page.tsx`. -/
theorem c8_injectivity_witness :
    getTargetPagesFilePath ["pages"] ["a", "page.tsx"] ≠
      getTargetPagesFilePath ["pages"] ["b", "page.tsx"] :=
  c8_injectivity_amended ["pages"] ["a", "page.tsx"] ["b", "page.tsx"]
    ⟨rfl, rfl⟩ ⟨rfl, rfl⟩ (by decide) (by decide) (by decide)

/-- C4 (counterexample): a passthrough (`api/`) file whose only export is the
named function `handler` is claimed to get an artifact re-exporting `handler`
as the new default.  In the code the no-default-export case of the `api/`
branch simply falls through to the page pipeline, which (finding no default
export and no data-loader) writes an artifact consisting of two newline
characters — no re-export of `handler` at all. -/
theorem c4_passthrough_counterexample :
    generateTargetPagesFile cfg0 fsApiNamed [] ["api", "handler.ts"] =
        .ok (some (.write ["pages", "api", "handler.ts"] "\n\n")) ∧
      ("\n\n").data.all (fun c => c == '\n') = true :=
  ⟨rfl, rfl⟩

/-- C4 (amended): for a passthrough (`api/`) file WITH a default export the
generated artifact re-exports that default export verbatim; a passthrough
file without one gets no named-export-to-default re-export (it falls through
to the page pipeline, see the counterexample). -/
theorem c4_passthrough_amended :
    ∀ (cfg : Config) (fs : FsState) (sG : List Path) (rel : Path) (ast : List TopStmt),
      ["_app", "_document"].contains (trimExtLast (rel.getLastD "")) = false →
      fs.astOf (cfg.routesDir ++ rel) = .ok ast →
      underApi rel = true →
      ast.any TopStmt.isExportDefault = true →
      fs.writeFails.contains (getTargetPagesFilePath cfg.pagesDir rel) = false →
      generateTargetPagesFile cfg fs sG rel =
        .ok (some (.write (getTargetPagesFilePath cfg.pagesDir rel)
          ("import RouteHandler from '" ++ renderPath cfg.routesDir ++ "/" ++
            trimExtension (renderPath rel) ++ "';\nexport default RouteHandler;"))) := by
  intro cfg fs sG rel ast h1 h2 h3 h4 h5
  unfold generateTargetPagesFile writeOut
  rw [h1, h2, h3]
  have h5m : getTargetPagesFilePath cfg.pagesDir rel ∉ fs.writeFails := by simpa using h5
  simp [h4, h5m]

/-- Witness for C4 (amended) at `api/handler.ts` with a default export. -/
theorem c4_passthrough_witness :
    generateTargetPagesFile cfg0 fsApiDefault [] ["api", "handler.ts"] =
      .ok (some (.write (getTargetPagesFilePath cfg0.pagesDir ["api", "handler.ts"])
        ("import RouteHandler from '" ++ renderPath cfg0.routesDir ++ "/" ++
          trimExtension (renderPath ["api", "handler.ts"]) ++ "';\nexport default RouteHandler;"))) :=
  c4_passthrough_amended cfg0 fsApiDefault [] ["api", "handler.ts"] [TopStmt.exportDefaultDecl]
    rfl rfl rfl rfl rfl

/-- C2 (counterexample): the combined data-loader is claimed to invoke the
contributing loaders in layout-chain order (outermost first, route last).
The call list is built by spreading the `Set` populated inside a
`Promise.all` fan-out, so its order is the COMPLETION order of the
concurrent analyses.  Here both layouts of `rel0` contribute (chain order
`[la0, lb0]`, second conjunct); under the equally realizable completion
order `[lb0, la0]` (a permutation of that set, first conjunct) the generated
combined function invokes the INNER layout's loader first. -/
theorem c2_call_order_counterexample :
    List.Perm [lb0, la0] [la0, lb0] ∧
      filterGSSP fs0 (layoutFilePaths cfg0.routesDir fs0 rel0) = .ok [la0, lb0] ∧
      generateTargetPagesFile cfg0 fs0 [lb0, la0] rel0 =
        .ok (some (.write ["pages", "index.tsx"]
          (importsText0 ++
            "\n\nexport const getServerSideProps = async (context) => \x7b\n\treturn deepmerge(\n\t\tawait bLayoutGetServerSideProps?.(context) ?? \x7b props: \x7b\x7d \x7d,\n\t\tawait aLayoutGetServerSideProps?.(context) ?? \x7b props: \x7b\x7d \x7d,\n\t\tawait pageGetServerSideProps?.(context) ?? \x7b props: \x7b\x7d \x7d\n\t)\n\x7d;\nexport default (props) => (<ALayout \x7b...props\x7d><BLayout \x7b...props\x7d><RouteComponent \x7b...props\x7d /></BLayout></ALayout>)"))) :=
  ⟨by decide, rfl, rfl⟩

/-- C2 (amended): for every completion order of the concurrent layout
analyses (both orders of the two contributing layouts are realizable), the
generated combined function invokes the layout data-loaders in that
completion order — not necessarily chain order — and the route's own
data-loader always last; collisions resolve through `deepmerge` where the
later call wins. -/
theorem c2_call_order_amended :
    ∀ sG : List Path, sG = [la0, lb0] ∨ sG = [lb0, la0] →
      generateTargetPagesFile cfg0 fs0 sG rel0 =
        .ok (some (.write ["pages", "index.tsx"]
          (importsText0 ++
            "\n\nexport const getServerSideProps = async (context) => \x7b\n\treturn deepmerge(\n\t\t" ++
            String.intercalate ",\n\t\t" (sG.map layoutCallText ++ [pageCallText]) ++
            "\n\t)\n\x7d;\nexport default (props) => (<ALayout \x7b...props\x7d><BLayout \x7b...props\x7d><RouteComponent \x7b...props\x7d /></BLayout></ALayout>)"))) := by
  rintro sG (rfl | rfl) <;> rfl

/-- Witness for C2 (amended) at the chain-order completion order. -/
theorem c2_call_order_witness :
    generateTargetPagesFile cfg0 fs0 [la0, lb0] rel0 =
      .ok (some (.write ["pages", "index.tsx"]
        (importsText0 ++
          "\n\nexport const getServerSideProps = async (context) => \x7b\n\treturn deepmerge(\n\t\t" ++
          String.intercalate ",\n\t\t" ([la0, lb0].map layoutCallText ++ [pageCallText]) ++
          "\n\t)\n\x7d;\nexport default (props) => (<ALayout \x7b...props\x7d><BLayout \x7b...props\x7d><RouteComponent \x7b...props\x7d /></BLayout></ALayout>)"))) :=
  c2_call_order_amended [la0, lb0] (Or.inl rfl)

/-- C3 (counterexample): generation output is claimed byte-identical across
runs on a fixed source state.  On the state `fs0` the two completion orders
of the concurrent layout analyses — both permutations of the contributing
set — yield different artifact bytes for the same target. -/
theorem c3_determinism_counterexample :
    List.Perm [lb0, la0] [la0, lb0] ∧
      outContents (generateTargetPagesFile cfg0 fs0 [la0, lb0] rel0) ≠
        outContents (generateTargetPagesFile cfg0 fs0 [lb0, la0] rel0) :=
  ⟨by decide, by decide⟩

/-- C3 (amended): generation is a pure function of the source state AND the
analysis completion order; when at most one layout contributes a data-loader
the completion order is forced, so any two runs produce identical output. -/
theorem c3_determinism_amended :
    ∀ (cfg : Config) (fs : FsState) (rel : Path) (lwg s1 s2 : List Path),
      filterGSSP fs (layoutFilePaths cfg.routesDir fs rel) = .ok lwg →
      lwg.length ≤ 1 →
      List.Perm s1 lwg → List.Perm s2 lwg →
      generateTargetPagesFile cfg fs s1 rel = generateTargetPagesFile cfg fs s2 rel := by
  intro cfg fs rel lwg s1 s2 _ hlen h1 h2
  rw [perm_eq_of_length_le_one hlen h1, perm_eq_of_length_le_one hlen h2]

/-- Witness for C3 (amended) on the single-layout tree `fsOne`. -/
theorem c3_determinism_witness :
    generateTargetPagesFile cfg0 fsOne [la0] rel0 =
      generateTargetPagesFile cfg0 fsOne (List.reverse [la0]) rel0 :=
  c3_determinism_amended cfg0 fsOne rel0 [la0] [la0] (List.reverse [la0])
    rfl (by decide) (by decide) (by decide)

end NextRoutesDir
